import Mathlib

/-!
Shallow embedding of `src/resources/Rajagopal2016/exampleMocoTrack.cpp`.

The file is configuration/glue code: it builds two MocoTrack tool
configurations and delegates all computation to the OpenSim Moco toolkit.
We embed each procedure as the sequence of toolkit API calls it performs
(a trace of `Event`s), with every argument it passes recorded exactly.
The muscle-driven procedure iterates over the `CoordinateActuator`
components of the processed model; that component list is external data,
so the procedure's trace is a function of the list of actuator paths.
-/

namespace MocoTrackExample

/-- Model operators appended to a `ModelProcessor` (the `ModOp...` calls
of the source, plus the base-model file the processor is built from). -/
inductive ModelOp where
  | baseModel (file : String)
  | addExternalLoads (file : String)
  | removeMuscles
  | addReserves (optimalForce : ℚ)
  | replaceMusclesWithDeGrooteFregly2016
  | ignorePassiveFiberForcesDGF
  | scaleActiveFiberForceCurveWidthDGF (scale : ℚ)
  deriving DecidableEq

/-- One toolkit API call made by the example file, with its arguments.
`initStudy` embeds `track.initialize()`; `processModel` embeds
`modelProcessor.process()`; `solve b` embeds a solve call whose
visualize flag is `b` (`track.solve(true)` and `moco.solve()`). -/
inductive Event where
  | setName (n : String)
  | setModel (ops : List ModelOp)
  | setMarkersReferenceFromTRC (file : String)
  | setStatesReference (file : String)
  | set_allow_unused_references (b : Bool)
  | set_markers_global_tracking_weight (w : ℚ)
  | set_states_global_tracking_weight (w : ℚ)
  | set_markers_weight_set (ws : List (String × ℚ))
  | set_track_reference_position_derivatives (b : Bool)
  | set_initial_time (t : ℚ)
  | set_final_time (t : ℚ)
  | set_mesh_interval (dt : ℚ)
  | initStudy
  | updGoal (goalName : String)
  | processModel (ops : List ModelOp)
  | setWeightForControl (path : String) (w : ℚ)
  | solve (visualize : Bool)
  | visualize
  deriving DecidableEq

/-- The model-operator chain of `torqueDrivenMarkerTracking`
(source lines 60-71), in the order the operators are appended. -/
def torqueModelOps : List ModelOp :=
  [ .baseModel "subject_walk_armless.osim",
    .addExternalLoads "grf_walk.xml",
    .removeMuscles,
    .addReserves 250 ]

/-- The marker weight set built in `torqueDrivenMarkerTracking`
(source lines 89-103), in `cloneAndAppend` order. -/
def markerWeights : List (String × ℚ) :=
  [ ("R.ASIS", 20), ("L.ASIS", 20), ("R.PSIS", 20), ("L.PSIS", 20),
    ("R.Knee", 10), ("R.Ankle", 10), ("R.Heel", 10), ("R.MT5", 5),
    ("R.Toe", 2), ("L.Knee", 10), ("L.Ankle", 10), ("L.Heel", 10),
    ("L.MT5", 5), ("L.Toe", 2) ]

/-- Trace of toolkit calls performed by `torqueDrivenMarkerTracking`
(source lines 49-114). -/
def torqueDrivenMarkerTracking : List Event :=
  [ .setName "torque_driven_marker_tracking",
    .setModel torqueModelOps,
    .setMarkersReferenceFromTRC "marker_trajectories.trc",
    .set_allow_unused_references true,
    .set_markers_global_tracking_weight 10,
    .set_markers_weight_set markerWeights,
    .set_initial_time (mkRat 81 100),
    .set_final_time (mkRat 165 100),
    .set_mesh_interval (mkRat 5 100),
    .solve true ]

/-- The model-operator chain of `muscleDrivenStateTracking`
(source lines 126-133), in the order the operators are appended. -/
def muscleModelOps : List ModelOp :=
  [ .baseModel "subject_walk_armless.osim",
    .addExternalLoads "grf_walk.xml",
    .replaceMusclesWithDeGrooteFregly2016,
    .ignorePassiveFiberForcesDGF,
    .scaleActiveFiberForceCurveWidthDGF (mkRat 15 10) ]

/-- Decides whether `pat` occurs at the head of `s` (character lists). -/
def leadingMatch (pat s : List Char) : Bool :=
  match pat with
  | [] => true
  | p :: ps =>
    match s with
    | [] => false
    | c :: cs => p == c && leadingMatch ps cs

/-- Decides whether `pat` occurs as a contiguous substring of `s`,
embedding the C++ test `s.find(pat) != std::string::npos`. -/
def containsSub (pat : List Char) : List Char → Bool
  | [] => leadingMatch pat []
  | c :: rest => leadingMatch pat (c :: rest) || containsSub pat rest

/-- The filter loop of `muscleDrivenStateTracking` (source lines 173-178):
for each coordinate actuator of the processed model, in model order, call
`setWeightForControl(path, 10)` when the path contains `"pelvis"`. -/
def pelvisLoop (actuatorPaths : List String) : List Event :=
  actuatorPaths.filterMap fun p =>
    if containsSub "pelvis".data p.data then
      some (.setWeightForControl p 10)
    else none

/-- The straight-line calls of `muscleDrivenStateTracking` preceding the
filter loop (source lines 116-172). -/
def musclePre : List Event :=
  [ .setName "muscle_driven_state_tracking",
    .setModel muscleModelOps,
    .setStatesReference "coordinates.sto",
    .set_states_global_tracking_weight 10,
    .set_allow_unused_references true,
    .set_track_reference_position_derivatives true,
    .set_initial_time (mkRat 81 100),
    .set_final_time (mkRat 165 100),
    .set_mesh_interval (mkRat 8 100),
    .initStudy,
    .updGoal "control_effort",
    .processModel muscleModelOps ]

/-- Trace of toolkit calls performed by `muscleDrivenStateTracking`
(source lines 116-183), as a function of the coordinate-actuator paths
of the processed model. -/
def muscleDrivenStateTracking (actuatorPaths : List String) : List Event :=
  musclePre ++ pelvisLoop actuatorPaths ++ [ .solve false, .visualize ]

/-- Trace of toolkit calls performed by `main` (source lines 185-198):
the first procedure's calls followed by the second's. -/
def mainTrace (actuatorPaths : List String) : List Event :=
  torqueDrivenMarkerTracking ++ muscleDrivenStateTracking actuatorPaths

/-- The value `main` returns when both procedures return normally
(source line 197). -/
def EXIT_SUCCESS : Int := 0

/-- Runs a trace of toolkit calls under a failure oracle assigning to each
call the toolkit exception it raises, if any. The file contains no
try/catch, so the first exception aborts the run. -/
def runEvents (failure : Event → Option String) : List Event → Except String Unit
  | [] => .ok ()
  | e :: rest =>
    match failure e with
    | some err => .error err
    | none => runEvents failure rest

/-- Result of executing `main` under a failure oracle: `EXIT_SUCCESS` when
every toolkit call returns normally, and the first toolkit exception
otherwise, since no handler exists in the file. -/
def runMain (failure : Event → Option String) (actuatorPaths : List String) :
    Except String Int :=
  match runEvents failure (mainTrace actuatorPaths) with
  | .ok () => .ok EXIT_SUCCESS
  | .error err => .error err

/-- Classifies the solve calls of a trace. -/
def isSolve : Event → Bool
  | .solve _ => true
  | _ => false

/-- Classifies the goal-weight post-processing calls of a trace. -/
def isSetWeightForControl : Event → Bool
  | .setWeightForControl _ _ => true
  | _ => false

/-- Classifies the error-suppression configuration calls of a trace: the
only toolkit call in the file that suppresses an error condition is
`set_allow_unused_references`. -/
def isErrorSuppression : Event → Bool
  | .set_allow_unused_references _ => true
  | _ => false

/-- Holds when the first occurrence of `e₁` in the trace is followed,
strictly later, by an occurrence of `e₂`. -/
def occursBefore (e₁ e₂ : Event) : List Event → Bool
  | [] => false
  | e :: rest => if e = e₁ then rest.contains e₂ else occursBefore e₁ e₂ rest

/-- The input file named by a model operator, if any. -/
def opFile : ModelOp → Option String
  | .baseModel f => some f
  | .addExternalLoads f => some f
  | _ => none

/-- All input file paths an event passes to the toolkit. -/
def eventFiles : Event → List String
  | .setModel ops => ops.filterMap opFile
  | .processModel ops => ops.filterMap opFile
  | .setMarkersReferenceFromTRC f => [f]
  | .setStatesReference f => [f]
  | _ => []

/-- All input file paths a trace passes to the toolkit, in order. -/
def traceFiles (tr : List Event) : List String :=
  tr.flatMap eventFiles

/-- Classifies the model-installation calls of a trace. -/
def isSetModel : Event → Bool
  | .setModel _ => true
  | _ => false

/-- Mirrors a marker name across the body midline: `L.X ↦ R.X` and
`R.X ↦ L.X`; names of any other shape have no mirror. -/
def mirrorName (s : String) : Option String :=
  match s.data with
  | 'L' :: '.' :: rest => some (String.mk ('R' :: '.' :: rest))
  | 'R' :: '.' :: rest => some (String.mk ('L' :: '.' :: rest))
  | _ => none

/-! ### Helper lemmas -/

theorem pelvisLoop_cons (p : String) (ps : List String) :
    pelvisLoop (p :: ps) =
      (if containsSub "pelvis".data p.data then [Event.setWeightForControl p 10]
       else []) ++ pelvisLoop ps := by
  by_cases h : containsSub "pelvis".data p.data = true
  · simp [pelvisLoop, List.filterMap_cons, h]
  · simp [pelvisLoop, List.filterMap_cons, h]

theorem pelvisLoop_countP (q : Event → Bool)
    (hq : ∀ p w, q (Event.setWeightForControl p w) = false)
    (acts : List String) : (pelvisLoop acts).countP q = 0 := by
  induction acts with
  | nil => rfl
  | cons p ps ih =>
    rw [pelvisLoop_cons, List.countP_append, ih]
    by_cases h : containsSub "pelvis".data p.data = true
    · simp [h, List.countP_cons, hq]
    · simp [h]

theorem pelvisLoop_flatMap_files (acts : List String) :
    (pelvisLoop acts).flatMap eventFiles = [] := by
  induction acts with
  | nil => rfl
  | cons p ps ih =>
    rw [pelvisLoop_cons, List.flatMap_append, ih]
    by_cases h : containsSub "pelvis".data p.data = true
    · simp [h, eventFiles]
    · simp [h]

theorem pelvisLoop_all_setWeight (acts : List String) :
    (pelvisLoop acts).all isSetWeightForControl = true := by
  induction acts with
  | nil => rfl
  | cons p ps ih =>
    rw [pelvisLoop_cons, List.all_append, ih]
    by_cases h : containsSub "pelvis".data p.data = true
    · simp [h, isSetWeightForControl]
    · simp [h]

theorem mem_pelvisLoop (acts : List String) (p : String) (w : ℚ) :
    Event.setWeightForControl p w ∈ pelvisLoop acts ↔
      p ∈ acts ∧ w = 10 ∧ containsSub "pelvis".data p.data = true := by
  unfold pelvisLoop
  rw [List.mem_filterMap]
  constructor
  · rintro ⟨a, ha, hfa⟩
    by_cases h : containsSub "pelvis".data a.data = true
    · rw [if_pos h] at hfa
      injection hfa with h2
      injection h2 with h3 h4
      subst h3
      exact ⟨ha, h4.symm, h⟩
    · rw [if_neg h] at hfa
      exact absurd hfa (by simp)
  · rintro ⟨hp, rfl, hc⟩
    exact ⟨p, hp, by rw [if_pos hc]⟩

theorem contains_append_left {l r : List Event} {e : Event}
    (h : l.contains e = true) : (l ++ r).contains e = true := by
  induction l with
  | nil => simp [List.contains] at h
  | cons x xs ih =>
    rw [List.contains_cons] at h
    rw [List.cons_append, List.contains_cons]
    rcases Bool.or_eq_true_iff.mp h with h1 | h2
    · exact Bool.or_eq_true_iff.mpr (Or.inl h1)
    · exact Bool.or_eq_true_iff.mpr (Or.inr (ih h2))

theorem occursBefore_append {e₁ e₂ : Event} {l r : List Event}
    (h : occursBefore e₁ e₂ l = true) : occursBefore e₁ e₂ (l ++ r) = true := by
  induction l with
  | nil => simp [occursBefore] at h
  | cons x xs ih =>
    rw [List.cons_append]
    unfold occursBefore at h ⊢
    by_cases hx : x = e₁
    · rw [if_pos hx] at h ⊢
      exact contains_append_left h
    · rw [if_neg hx] at h ⊢
      exact ih h

/-- `occursBefore` facts established on the concrete straight-line segment
`musclePre` extend to the whole muscle-driven trace. -/
theorem occursBefore_muscle {e₁ e₂ : Event} (acts : List String)
    (h : occursBefore e₁ e₂ musclePre = true) :
    occursBefore e₁ e₂ (muscleDrivenStateTracking acts) = true := by
  unfold muscleDrivenStateTracking
  exact occursBefore_append (occursBefore_append h)

/-- Counting events of a kind in the muscle-driven trace reduces to the
straight-line segments whenever the kind excludes `setWeightForControl`,
since the filter loop emits only `setWeightForControl` calls. -/
theorem muscle_countP_eq (q : Event → Bool)
    (hq : ∀ p w, q (Event.setWeightForControl p w) = false) (acts : List String) :
    (muscleDrivenStateTracking acts).countP q =
      musclePre.countP q + [Event.solve false, Event.visualize].countP q := by
  unfold muscleDrivenStateTracking
  rw [List.countP_append, List.countP_append, pelvisLoop_countP q hq acts]
  simp

/-- All input file paths passed to the toolkit across an execution of
`main`, in call order: the filter loop passes no files, so the list is
closed. -/
theorem traceFiles_main (acts : List String) :
    traceFiles (mainTrace acts) =
      ["subject_walk_armless.osim", "grf_walk.xml", "marker_trajectories.trc",
       "subject_walk_armless.osim", "grf_walk.xml", "coordinates.sto",
       "subject_walk_armless.osim", "grf_walk.xml"] := by
  unfold mainTrace muscleDrivenStateTracking traceFiles
  rw [List.flatMap_append, List.flatMap_append, List.flatMap_append,
    pelvisLoop_flatMap_files]
  decide

/-! ### Claims -/

/-- C1: in `muscleDrivenStateTracking`, the filter loop invokes
`setWeightForControl(path, 10)` exactly for the coordinate-actuator paths
of the processed model that contain the substring `"pelvis"`, and the
procedure modifies the weight of no other control: a `setWeightForControl`
call with path `p` and weight `w` occurs in the trace if and only if `p`
is an actuator path, `w = 10`, and `p` contains `"pelvis"`. -/
theorem C1_pelvis_weight_filter (acts : List String) (p : String) (w : ℚ) :
    Event.setWeightForControl p w ∈ muscleDrivenStateTracking acts ↔
      p ∈ acts ∧ w = 10 ∧ containsSub "pelvis".data p.data = true := by
  unfold muscleDrivenStateTracking
  constructor
  · intro h
    rcases List.mem_append.mp h with h1 | hpost
    · rcases List.mem_append.mp h1 with hpre | hloop
      · exact absurd hpre (by simp [musclePre])
      · exact (mem_pelvisLoop acts p w).mp hloop
    · exact absurd hpost (by simp)
  · intro h
    exact List.mem_append.mpr
      (Or.inl (List.mem_append.mpr (Or.inr ((mem_pelvisLoop acts p w).mpr h))))

/-- C2 counterexample: run `muscleDrivenStateTracking` on a model with the
single coordinate actuator `/forceset/pelvis_tx`. The goal-weight
post-processing occurs (one `setWeightForControl` call), yet the trace
contains exactly one solve call, the solve follows the post-processing,
and no solve of either kind precedes it — refuting "a solve precedes the
post-processing and a second solve follows it". -/
theorem C2_counterexample :
    (muscleDrivenStateTracking ["/forceset/pelvis_tx"]).countP isSolve = 1 ∧
    (muscleDrivenStateTracking ["/forceset/pelvis_tx"]).countP
      isSetWeightForControl = 1 ∧
    occursBefore (.setWeightForControl "/forceset/pelvis_tx" 10) (.solve false)
      (muscleDrivenStateTracking ["/forceset/pelvis_tx"]) = true ∧
    occursBefore (.solve false) (.setWeightForControl "/forceset/pelvis_tx" 10)
      (muscleDrivenStateTracking ["/forceset/pelvis_tx"]) = false ∧
    occursBefore (.solve true) (.setWeightForControl "/forceset/pelvis_tx" 10)
      (muscleDrivenStateTracking ["/forceset/pelvis_tx"]) = false := by
  decide

/-- C2 (amended): each procedure configures the model, then the reference
data, then the scalar parameters; the torque-driven procedure then solves,
while the muscle-driven procedure initializes the study, post-processes
goal weights, and performs its single solve after the post-processing
(no solve precedes the post-processing). -/
theorem C2_call_order (acts : List String) :
    occursBefore (.setModel torqueModelOps)
      (.setMarkersReferenceFromTRC "marker_trajectories.trc")
      torqueDrivenMarkerTracking = true ∧
    occursBefore (.setMarkersReferenceFromTRC "marker_trajectories.trc")
      (.set_initial_time (mkRat 81 100)) torqueDrivenMarkerTracking = true ∧
    occursBefore (.set_initial_time (mkRat 81 100)) (.solve true)
      torqueDrivenMarkerTracking = true ∧
    occursBefore (.setModel muscleModelOps) (.setStatesReference "coordinates.sto")
      (muscleDrivenStateTracking acts) = true ∧
    occursBefore (.setStatesReference "coordinates.sto")
      (.set_initial_time (mkRat 81 100)) (muscleDrivenStateTracking acts) = true ∧
    occursBefore (.set_initial_time (mkRat 81 100)) .initStudy
      (muscleDrivenStateTracking acts) = true ∧
    muscleDrivenStateTracking acts =
      musclePre ++ pelvisLoop acts ++ [.solve false, .visualize] ∧
    (pelvisLoop acts).all isSetWeightForControl = true ∧
    (muscleDrivenStateTracking acts).countP isSolve = 1 := by
  refine ⟨by decide, by decide, by decide,
    occursBefore_muscle acts (by decide), occursBefore_muscle acts (by decide),
    occursBefore_muscle acts (by decide), rfl, pelvisLoop_all_setWeight acts, ?_⟩
  rw [muscle_countP_eq isSolve (fun p w => rfl) acts]
  decide

/-- C3 counterexample: an execution of `main` performs two
`set_allow_unused_references(true)` calls — one in each procedure — so the
error-suppression flag is set in two places, not exactly one. -/
theorem C3_counterexample :
    (mainTrace []).countP isErrorSuppression = 2 := by
  decide

/-- C3 (amended): the file uses exactly one kind of error-suppression
configuration, the `allow_unused_references` flag; each of the two
procedures sets it to `true` exactly once (two call sites in the file),
and no other error-suppression call occurs in any execution. -/
theorem C3_suppression_flag (acts : List String) :
    torqueDrivenMarkerTracking.countP isErrorSuppression = 1 ∧
    (muscleDrivenStateTracking acts).countP isErrorSuppression = 1 ∧
    Event.set_allow_unused_references true ∈ torqueDrivenMarkerTracking ∧
    Event.set_allow_unused_references true ∈ muscleDrivenStateTracking acts ∧
    (mainTrace acts).countP isErrorSuppression = 2 := by
  refine ⟨by decide, ?_, by decide, ?_, ?_⟩
  · rw [muscle_countP_eq isErrorSuppression (fun p w => rfl) acts]
    decide
  · unfold muscleDrivenStateTracking
    exact List.mem_append.mpr (Or.inl (List.mem_append.mpr (Or.inl (by decide))))
  · unfold mainTrace
    rw [List.countP_append, muscle_countP_eq isErrorSuppression (fun p w => rfl) acts]
    decide

/-- C4: each procedure invokes the external solve exactly once on every
execution: the torque-driven trace contains exactly one solve call, and
the muscle-driven trace contains exactly one solve call whatever the
actuator paths of the processed model are. -/
theorem C4_single_solve (acts : List String) :
    torqueDrivenMarkerTracking.countP isSolve = 1 ∧
    (muscleDrivenStateTracking acts).countP isSolve = 1 := by
  refine ⟨by decide, ?_⟩
  rw [muscle_countP_eq isSolve (fun p w => rfl) acts]
  decide

/-- C5: each procedure installs exactly one model-operator chain, in the
appended order: the torque-driven chain adds external loads, removes
muscles, then adds reserve actuators with optimal force 250; the
muscle-driven chain adds external loads, replaces muscles with
DeGrooteFregly2016 muscles, ignores passive fiber forces, then scales the
active fiber force curve width by 1.5 (`mkRat 15 10`). -/
theorem C5_operator_chains (acts : List String) :
    Event.setModel
      [ModelOp.baseModel "subject_walk_armless.osim",
       ModelOp.addExternalLoads "grf_walk.xml",
       ModelOp.removeMuscles,
       ModelOp.addReserves 250] ∈ torqueDrivenMarkerTracking ∧
    torqueDrivenMarkerTracking.countP isSetModel = 1 ∧
    Event.setModel
      [ModelOp.baseModel "subject_walk_armless.osim",
       ModelOp.addExternalLoads "grf_walk.xml",
       ModelOp.replaceMusclesWithDeGrooteFregly2016,
       ModelOp.ignorePassiveFiberForcesDGF,
       ModelOp.scaleActiveFiberForceCurveWidthDGF (mkRat 15 10)] ∈
      muscleDrivenStateTracking acts ∧
    (muscleDrivenStateTracking acts).countP isSetModel = 1 ∧
    (mkRat 15 10 : ℚ) = 1.5 := by
  refine ⟨by decide, by decide, ?_, ?_, by norm_num [mkRat]⟩
  · unfold muscleDrivenStateTracking
    exact List.mem_append.mpr (Or.inl (List.mem_append.mpr (Or.inl (by decide))))
  · rw [muscle_countP_eq isSetModel (fun p w => rfl) acts]
    decide

/-- C6: across any execution of `main`, the input file paths passed to the
toolkit are exactly the four files `subject_walk_armless.osim` (model),
`grf_walk.xml` (ground reaction forces), `marker_trajectories.trc`
(marker trajectories) and `coordinates.sto` (coordinate time series);
the four names are pairwise distinct. -/
theorem C6_input_files :
    (∀ acts f, f ∈ traceFiles (mainTrace acts) ↔
      f ∈ ["subject_walk_armless.osim", "grf_walk.xml",
           "marker_trajectories.trc", "coordinates.sto"]) ∧
    ["subject_walk_armless.osim", "grf_walk.xml",
     "marker_trajectories.trc", "coordinates.sto"].Nodup := by
  refine ⟨fun acts f => ?_, by decide⟩
  rw [traceFiles_main acts]
  simp only [List.mem_cons, List.not_mem_nil, or_false]
  tauto

/-- C7: in both procedures the scalar settings precede the building of the
problem: the torque-driven trace sets initial time `81/100 = 0.81`, final
time `165/100 = 1.65`, markers global tracking weight 10 and mesh interval
`5/100 = 0.05` before its solve call, and the muscle-driven trace sets the
same initial and final times, states global tracking weight 10 and mesh
interval `8/100 = 0.08` before its initialize call. -/
theorem C7_scalar_settings (acts : List String) :
    occursBefore (.set_initial_time (mkRat 81 100)) (.solve true)
      torqueDrivenMarkerTracking = true ∧
    occursBefore (.set_final_time (mkRat 165 100)) (.solve true)
      torqueDrivenMarkerTracking = true ∧
    occursBefore (.set_markers_global_tracking_weight 10) (.solve true)
      torqueDrivenMarkerTracking = true ∧
    occursBefore (.set_mesh_interval (mkRat 5 100)) (.solve true)
      torqueDrivenMarkerTracking = true ∧
    occursBefore (.set_initial_time (mkRat 81 100)) .initStudy
      (muscleDrivenStateTracking acts) = true ∧
    occursBefore (.set_final_time (mkRat 165 100)) .initStudy
      (muscleDrivenStateTracking acts) = true ∧
    occursBefore (.set_states_global_tracking_weight 10) .initStudy
      (muscleDrivenStateTracking acts) = true ∧
    occursBefore (.set_mesh_interval (mkRat 8 100)) .initStudy
      (muscleDrivenStateTracking acts) = true ∧
    (mkRat 81 100 : ℚ) = 0.81 ∧ (mkRat 165 100 : ℚ) = 1.65 ∧
    (mkRat 5 100 : ℚ) = 0.05 ∧ (mkRat 8 100 : ℚ) = 0.08 := by
  refine ⟨by decide, by decide, by decide, by decide,
    occursBefore_muscle acts (by decide), occursBefore_muscle acts (by decide),
    occursBefore_muscle acts (by decide), occursBefore_muscle acts (by decide),
    by norm_num [mkRat], by norm_num [mkRat], by norm_num [mkRat],
    by norm_num [mkRat]⟩

/-- C8: the two procedures are independent at this file's level: `main`'s
trace is the plain concatenation of the two standalone procedure traces,
so the segment contributed by each procedure is identical to the trace of
running that procedure alone, and the torque-driven segment does not
depend on the data the muscle-driven procedure sees. -/
theorem C8_procedure_independence (acts acts' : List String) :
    mainTrace acts = torqueDrivenMarkerTracking ++ muscleDrivenStateTracking acts ∧
    (mainTrace acts).take torqueDrivenMarkerTracking.length =
      torqueDrivenMarkerTracking ∧
    (mainTrace acts).drop torqueDrivenMarkerTracking.length =
      muscleDrivenStateTracking acts ∧
    (mainTrace acts).take torqueDrivenMarkerTracking.length =
      (mainTrace acts').take torqueDrivenMarkerTracking.length := by
  refine ⟨rfl, List.take_left _ _, List.drop_left _ _, ?_⟩
  unfold mainTrace
  rw [List.take_left, List.take_left]

/-- C9: the marker weight set of `torqueDrivenMarkerTracking` has exactly
14 entries and is left/right symmetric: every entry's name has the form
`L.X` or `R.X`, the mirrored name appears in the set with the same weight,
and the pairs carry the weights the source assigns (ASIS and PSIS at 20;
Knee, Ankle and Heel at 10; MT5 at 5; Toe at 2). -/
theorem C9_marker_weight_symmetry :
    markerWeights.length = 14 ∧
    (markerWeights.all fun p =>
      ((mirrorName p.1).map fun m => markerWeights.contains (m, p.2)).getD false)
      = true ∧
    ("R.ASIS", (20 : ℚ)) ∈ markerWeights ∧ ("L.ASIS", (20 : ℚ)) ∈ markerWeights ∧
    ("R.PSIS", (20 : ℚ)) ∈ markerWeights ∧ ("L.PSIS", (20 : ℚ)) ∈ markerWeights ∧
    ("R.Knee", (10 : ℚ)) ∈ markerWeights ∧ ("L.Knee", (10 : ℚ)) ∈ markerWeights ∧
    ("R.Ankle", (10 : ℚ)) ∈ markerWeights ∧ ("L.Ankle", (10 : ℚ)) ∈ markerWeights ∧
    ("R.Heel", (10 : ℚ)) ∈ markerWeights ∧ ("L.Heel", (10 : ℚ)) ∈ markerWeights ∧
    ("R.MT5", (5 : ℚ)) ∈ markerWeights ∧ ("L.MT5", (5 : ℚ)) ∈ markerWeights ∧
    ("R.Toe", (2 : ℚ)) ∈ markerWeights ∧ ("L.Toe", (2 : ℚ)) ∈ markerWeights := by
  refine ⟨?_, ?_, ?_, ?_, ?_, ?_, ?_, ?_,
    ?_, ?_, ?_, ?_, ?_, ?_, ?_, ?_⟩ <;> decide

/-- C10: `main` runs the torque-driven procedure and then the muscle-driven
procedure; when every toolkit call returns normally it returns
`EXIT_SUCCESS`, irrespective of the solver's outcome, and since the file
installs no handler, the first toolkit exception propagates out of `main`
unchanged. -/
theorem C10_main_exit (failure : Event → Option String) (acts : List String) :
    (runEvents failure (mainTrace acts) = .ok () →
      runMain failure acts = .ok EXIT_SUCCESS) ∧
    (∀ err, runEvents failure (mainTrace acts) = .error err →
      runMain failure acts = .error err) ∧
    mainTrace acts = torqueDrivenMarkerTracking ++ muscleDrivenStateTracking acts := by
  refine ⟨?_, ?_, rfl⟩
  · intro h
    unfold runMain
    rw [h]
  · intro err h
    unfold runMain
    rw [h]

/-- C10 witness: in an execution where no toolkit call raises, `main`
returns `EXIT_SUCCESS`. -/
theorem C10_main_exit_witness :
    runMain (fun _ => none) [] = Except.ok EXIT_SUCCESS :=
  (C10_main_exit (fun _ => none) []).1 rfl

end MocoTrackExample
